import Mathlib

/-!
Shallow embedding of the paginated lookup routines of the
`terraform-provider-slack` repository (package `internal/provider`).

The repository snapshot contains two revisions of the channel data source:
an older one whose `getChannelById` / `getChannelByName` have no rate-limit
handling (provider.go lines 524-583), and the current one whose
`getChannelByName` runs a retry loop around `GetConversationsContext`
(provider.go lines 730-804).  Both are embedded here; the older variants
carry the suffix `NoRetry` / `Unchecked`.

The remote Slack API is the external collaborator.  Its behaviour at each
call is an environment choice, so a lookup run is modelled against a trace:
a list holding, for each successive fetch call, the outcome the endpoint
produced (a page with a continuation cursor, a rate-limit signal together
with the outcome of the cancellation-vs-timer select that the Go code runs
on that signal, or a plain error).  The cursor the Go code sends with each
fetch is tracked explicitly, and every lookup returns, beside its result,
the list of cursors it sent (one entry per fetch issued), so that claims
about which pages were fetched are claims about that log.
-/

set_option autoImplicit false

namespace SlackProvider

/-- A Go `error` value as the provider code distinguishes them: either a
`*slack.RateLimitedError` (detected by type assertion, carrying the
retry-after duration) or any other error, identified by its message
(the code compares errors only via `err.Error()`). -/
inductive GoError where
  | rateLimited (retryAfter : Nat)
  | mk (msg : String)
  deriving Repr, DecidableEq

/-- Computes `err.Error()` for the modelled error values.  `slack.RateLimitedError`
formats its message from the retry-after duration. -/
def GoError.message : GoError → String
  | .rateLimited d => "slack rate limit exceeded, retry after " ++ toString d ++ "s"
  | .mk m => m

/-- The fields of `slack.Channel` the provider reads: `ID`, `Name`,
`IsPrivate`, `Topic.Value`, `Purpose.Value`. -/
structure Channel where
  id : String
  name : String
  isPrivate : Bool
  topic : String
  purpose : String
  deriving Repr, DecidableEq

/-- Models `slack.Channel` zero value, returned on every failure path. -/
def Channel.empty : Channel := ⟨"", "", false, "", ""⟩

/-- The fields of `slack.User` the provider reads; `email` stands for
`Profile.Email`. -/
structure User where
  id : String
  name : String
  email : String
  deleted : Bool
  deriving Repr, DecidableEq

/-- The fields of `slack.UserGroup` the provider reads. -/
structure UserGroup where
  id : String
  handle : String
  name : String
  description : String
  isExternal : Bool
  deriving Repr, DecidableEq

/-- Outcome of one `GetConversationsContext` call, as chosen by the
environment.  A `rateLimited` step also records which branch of the
subsequent `select` fires in the Go code: `ctxDone = true` means the
caller's context is cancelled (with `ctx.Err().Error() = ctxErrMsg`)
before the retry-after timer; `ctxDone = false` means the timer wins
and the loop retries. -/
inductive ChanStep where
  | page (channels : List Channel) (nextCursor : String)
  | rateLimited (retryAfter : Nat) (ctxDone : Bool) (ctxErrMsg : String)
  | fail (msg : String)
  deriving Repr, DecidableEq

/-- Result of a lookup run against a finite trace.  `truncated` is a model
artifact: the trace ended while the Go loop would have issued another
fetch. -/
inductive LookupResult (α : Type) where
  | found (a : α)
  | err (e : GoError)
  | truncated
  deriving Repr, DecidableEq

/-- The current `getChannelByName` (provider.go lines 746-804): a single
loop that fetches with an explicit cursor, scans each page for the first
channel whose `Name` equals `name`, follows the next-cursor, returns
`channel_not_found` when the cursor runs out, absorbs rate-limit errors by
re-fetching with the unchanged cursor after the timer (or exits with
`ctx.Err()` if cancellation wins the select), and exits on any other error;
every loop exit through a non-nil `err` returns
`fmt.Errorf("error listing channels: %s", err.Error())`.
Returns the result and the log of cursors sent, one per fetch issued.
(The `excludeArchived` flag is forwarded to the API verbatim and does not
influence the control flow, so it is left to the environment trace.) -/
def getChannelByName (name : String) : String → List ChanStep → LookupResult Channel × List String
  | _, [] => (.truncated, [])
  | cursor, .page channels next :: rest =>
    match channels.find? (fun c => c.name == name) with
    | some c => (.found c, [cursor])
    | none =>
      if next == "" then
        (.err (.mk "channel_not_found"), [cursor])
      else
        let r := getChannelByName name next rest
        (r.1, cursor :: r.2)
  | cursor, .rateLimited _ ctxDone ctxErrMsg :: rest =>
    if ctxDone then
      (.err (.mk ("error listing channels: " ++ ctxErrMsg)), [cursor])
    else
      let r := getChannelByName name cursor rest
      (r.1, cursor :: r.2)
  | cursor, .fail msg :: _ =>
    (.err (.mk ("error listing channels: " ++ msg)), [cursor])

/-- The inner `for next != ""` loop of the older `getChannelByName`
(provider.go lines 559-579): stops as soon as the cursor is empty,
returns any fetch error verbatim (it has no rate-limit handling, so a
rate-limit error is returned as-is too), and scans each page for the
first name match. -/
def getChannelByNameNoRetryLoop (name : String) : String → List ChanStep → LookupResult Channel × List String
  | next, [] =>
    if next == "" then (.err (.mk ("channel: " ++ name ++ " not found")), [])
    else (.truncated, [])
  | next, .page channels next2 :: rest =>
    if next == "" then (.err (.mk ("channel: " ++ name ++ " not found")), [])
    else
      match channels.find? (fun c => c.name == name) with
      | some c => (.found c, [next])
      | none =>
        let r := getChannelByNameNoRetryLoop name next2 rest
        (r.1, next :: r.2)
  | next, .rateLimited d _ _ :: _ =>
    if next == "" then (.err (.mk ("channel: " ++ name ++ " not found")), [])
    else (.err (.rateLimited d), [next])
  | next, .fail msg :: _ =>
    if next == "" then (.err (.mk ("channel: " ++ name ++ " not found")), [])
    else (.err (.mk msg), [next])

/-- The older `getChannelByName` (provider.go lines 537-583): one initial
fetch without a cursor, then the `for next != ""` loop.  Errors are
propagated verbatim; exhaustion yields `channel: <name> not found`. -/
def getChannelByNameNoRetry (name : String) (trace : List ChanStep) : LookupResult Channel × List String :=
  match trace with
  | [] => (.truncated, [])
  | .page channels next :: rest =>
    match channels.find? (fun c => c.name == name) with
    | some c => (.found c, [""])
    | none =>
      let r := getChannelByNameNoRetryLoop name next rest
      (r.1, "" :: r.2)
  | .rateLimited d _ _ :: _ => (.err (.rateLimited d), [""])
  | .fail msg :: _ => (.err (.mk msg), [""])

/-- Build the trace of an endpoint that honestly serves the given pages in
order with no interference: every page but the last carries the (non-empty,
otherwise arbitrary) continuation cursor `"c"`, the last an empty cursor. -/
def pagesToTrace : List (List Channel) → List ChanStep
  | [] => []
  | [p] => [.page p ""]
  | p :: q :: rest => .page p "c" :: pagesToTrace (q :: rest)

/-- Holds (`true`) iff the trace contains no rate-limit step. -/
def noRateLimit (trace : List ChanStep) : Bool :=
  trace.all fun s => match s with
    | .rateLimited _ _ _ => false
    | _ => true

/-- Observable agreement of two lookup runs: same fetch log, same
success-versus-not behaviour with the same channel on success, and
agreement on trace truncation.  (Error messages are allowed to differ.) -/
def ObsEq (p q : LookupResult Channel × List String) : Prop :=
  p.2 = q.2 ∧ (∀ c : Channel, p.1 = .found c ↔ q.1 = .found c) ∧
    (p.1 = .truncated ↔ q.1 = .truncated)

/-- Environment choice for one user-list fetch attempted by
`UserPagination.Next`: the HTTP call either succeeds (serving the next
stored page), is rate-limited (again bundled with the outcome of the Go
code's select on that signal), or fails with a plain error. -/
inductive CallFate where
  | succeed
  | rateLimit (retryAfter : Nat) (ctxDone : Bool) (ctxErrMsg : String)
  | fail (msg : String)
  deriving Repr, DecidableEq

/-- The state of the collaborator's `slack.UserPagination` as the provider
loop observes it: the users of the page most recently served, the pages the
endpoint has not served yet, and whether any page has been served
(`previousResp != nil`).  `Next` leaves this state unchanged when the HTTP
call errors, which is what makes a retry re-fetch the same page; pagination
is complete when a page has been served and none remain. -/
structure UserPagination where
  users : List User
  remaining : List (List User)
  started : Bool
  deriving Repr, DecidableEq

/-- The retry loop of `getUserByName` (part_001 lines 682-698): while
`err == nil`, call `page.Next(ctx)`.  If pagination is already complete,
`Next` returns `errPaginationComplete` without an HTTP call and the loop
exits.  Otherwise the environment decides the call's fate: on success the
served page is scanned for the first user whose `Name` equals `name`; on a
rate-limit the select either exits the loop with `ctx.Err()` or clears
`err` and retries with the pagination state unchanged; on any other error
the loop exits.  Every path out of the loop falls through to
`return &slack.User{}, fmt.Errorf("user: %s not found", name)`.
Returns the result and the number of HTTP fetches issued. -/
def getUserByNameLoop (name : String) : UserPagination → List CallFate → LookupResult User × Nat
  | p, [] =>
    if p.started && p.remaining.isEmpty then
      (.err (.mk ("user: " ++ name ++ " not found")), 0)
    else (.truncated, 0)
  | p, .succeed :: rest =>
    if p.started && p.remaining.isEmpty then
      (.err (.mk ("user: " ++ name ++ " not found")), 0)
    else
      match (p.remaining.headD []).find? (fun u => u.name == name) with
      | some u => (.found u, 1)
      | none =>
        let r := getUserByNameLoop name ⟨p.remaining.headD [], p.remaining.tail, true⟩ rest
        (r.1, r.2 + 1)
  | p, .rateLimit _ ctxDone _ :: rest =>
    if p.started && p.remaining.isEmpty then
      (.err (.mk ("user: " ++ name ++ " not found")), 0)
    else if ctxDone then
      (.err (.mk ("user: " ++ name ++ " not found")), 1)
    else
      let r := getUserByNameLoop name p rest
      (r.1, r.2 + 1)
  | p, .fail _ :: _ =>
    if p.started && p.remaining.isEmpty then
      (.err (.mk ("user: " ++ name ++ " not found")), 0)
    else (.err (.mk ("user: " ++ name ++ " not found")), 1)

/-- Embeds `getUserByName` (part_001 lines 667-702): `GetUsersPaginated()` builds
a pagination whose `Users` field is empty without fetching; the pre-loop
scan over it therefore finds nothing, and the retry loop does the work
starting from the unstarted pagination state over the workspace's pages. -/
def getUserByName (name : String) (workspacePages : List (List User)) (fates : List CallFate) :
    LookupResult User × Nat :=
  match ([] : List User).find? (fun u => u.name == name) with
  | some u => (.found u, 0)
  | none => getUserByNameLoop name ⟨[], workspacePages, false⟩ fates

/-- Embeds `getUserByEmail` (part_001 lines 704-734).  `byEmail` is the outcome of
the direct `GetUserByEmailContext` call; `allUsers` is the outcome the
unpaginated `GetUsersContext` call would have (consulted only on the
fallback path).  The returned flag records whether that fallback fetch was
performed.  The fallback is taken only when the direct call failed with
`users_not_found` and the caller opted into deactivated users; it scans for
the first user whose `Profile.Email` equals `email`. -/
def getUserByEmail (email : String) (includeDeactivated : Bool)
    (byEmail : Except GoError User) (allUsers : Except GoError (List User)) :
    Except GoError User × Bool :=
  match byEmail with
  | .ok u => (.ok u, false)
  | .error e =>
    if e.message == "users_not_found" && includeDeactivated then
      match allUsers with
      | .error e2 => (.error e2, true)
      | .ok users =>
        match users.find? (fun u => u.email == email) with
        | some u => (.ok u, true)
        | none => (.error (.mk ("user: " ++ email ++ " not found")), true)
    else
      (.error e, false)

/-- Embeds `getUserGroupById` (usergroup_data_source.go lines 160-169): scan the
already-fetched list in order, return the first group whose `ID` matches,
else `could not find user group <id>`. -/
def getUserGroupById (userGroups : List UserGroup) (id : String) : Except GoError UserGroup :=
  match userGroups with
  | [] => .error (.mk ("could not find user group " ++ id))
  | g :: rest => if g.id == id then .ok g else getUserGroupById rest id

/-- Embeds `getUserGroupByHandle` (usergroup_data_source.go lines 171-180): same
scan keyed on `Handle`. -/
def getUserGroupByHandle (userGroups : List UserGroup) (handle : String) : Except GoError UserGroup :=
  match userGroups with
  | [] => .error (.mk ("could not find user group " ++ handle))
  | g :: rest => if g.handle == handle then .ok g else getUserGroupByHandle rest handle

/-- Error diagnostics added by `ChannelResource.Delete` (provider.go lines
386-408) as a function of the `ArchiveConversationContext` outcome: a nil
error or an error whose message is `channel_not_found` add nothing; every
other error adds the `Client Error` diagnostic. -/
def channelDeleteDiags (archiveErr : Option GoError) : List String :=
  match archiveErr with
  | none => []
  | some e =>
    if e.message == "channel_not_found" then []
    else ["Unable to archive channel, got error: " ++ e.message]

/-- Evaluation result of a Go expression that may dereference a nil
pointer: either a value or a runtime crash. -/
inductive GoVal (α : Type) where
  | ok (a : α)
  | crash
  deriving Repr, DecidableEq

/-- The current `getChannelById` (provider.go lines 730-744):
`GetConversationInfoContext` returns a channel pointer (`fetched`, `none`
standing for nil) and an error; on a non-nil error the function returns
`slack.Channel{}` and that error without touching the pointer, and only on
the nil-error path dereferences it. -/
def getChannelById (fetched : Option Channel) (ferr : Option GoError) :
    GoVal (Channel × Option GoError) :=
  match ferr with
  | some e => .ok (Channel.empty, some e)
  | none =>
    match fetched with
    | some c => .ok (c, none)
    | none => .crash

/-- The older `getChannelById` (provider.go lines 524-535): it executes
`return *channel, err` unconditionally, dereferencing the fetched pointer
even when the call errored and the pointer is nil. -/
def getChannelByIdUnchecked (fetched : Option Channel) (ferr : Option GoError) :
    GoVal (Channel × Option GoError) :=
  match fetched with
  | some c => .ok (c, ferr)
  | none => .crash

/-! ### Helper lemmas -/

theorem getChannelByName_found (name : String) :
    ∀ (pages : List (List Channel)) (cursor : String) (c : Channel), pages ≠ [] →
      pages.flatten.find? (fun ch => ch.name == name) = some c →
      (getChannelByName name cursor (pagesToTrace pages)).1 = .found c
  | [], _, _, h, _ => absurd rfl h
  | [p], cursor, c, _, hf => by
    simp only [List.flatten_cons, List.flatten_nil, List.append_nil] at hf
    simp [pagesToTrace, getChannelByName, hf]
  | p :: q :: rest, cursor, c, _, hf => by
    simp only [List.flatten_cons, List.find?_append] at hf
    cases hp : p.find? (fun ch => ch.name == name) with
    | some c' =>
      rw [hp] at hf
      simp only [Option.or_some, Option.some.injEq] at hf
      subst hf
      simp [pagesToTrace, getChannelByName, hp]
    | none =>
      rw [hp] at hf
      simp only [Option.none_or] at hf
      have ih := getChannelByName_found name (q :: rest) "c" c (by simp)
        (by simpa [List.flatten_cons] using hf)
      simp [pagesToTrace, getChannelByName, hp, ih]

theorem getChannelByName_missed (name : String) :
    ∀ (pages : List (List Channel)) (cursor : String), pages ≠ [] →
      pages.flatten.find? (fun ch => ch.name == name) = none →
      (getChannelByName name cursor (pagesToTrace pages)).1 = .err (.mk "channel_not_found")
  | [], _, h, _ => absurd rfl h
  | [p], cursor, _, hf => by
    simp only [List.flatten_cons, List.flatten_nil, List.append_nil] at hf
    simp [pagesToTrace, getChannelByName, hf]
  | p :: q :: rest, cursor, _, hf => by
    simp only [List.flatten_cons, List.find?_append, Option.or_eq_none] at hf
    have ih := getChannelByName_missed name (q :: rest) "c" (by simp)
      (by simpa [List.flatten_cons] using hf.2)
    simp [pagesToTrace, getChannelByName, hf.1, ih]

theorem getChannelByName_miss_log (name : String) :
    ∀ (pages : List (List Channel)) (cursor : String),
      (∀ p ∈ pages, p.find? (fun ch => ch.name == name) = none) →
      (getChannelByName name cursor (pagesToTrace pages)).2.length = pages.length
  | [], _, _ => rfl
  | [p], cursor, hall => by
    have hp := hall p (by simp)
    simp [pagesToTrace, getChannelByName, hp]
  | p :: q :: rest, cursor, hall => by
    have hp := hall p (by simp)
    have ih := getChannelByName_miss_log name (q :: rest) "c"
      (fun x hx => hall x (List.mem_cons_of_mem p hx))
    simp [pagesToTrace, getChannelByName, hp, ih]

theorem getChannelByName_page_k (name : String) :
    ∀ (pre rest : List (List Channel)) (pk : List Channel) (c : Channel) (cursor : String),
      (∀ p ∈ pre, p.find? (fun ch => ch.name == name) = none) →
      pk.find? (fun ch => ch.name == name) = some c →
      (getChannelByName name cursor (pagesToTrace (pre ++ pk :: rest))).1 = .found c ∧
      (getChannelByName name cursor (pagesToTrace (pre ++ pk :: rest))).2.length = pre.length + 1
  | [], rest, pk, c, cursor, _, hk => by
    cases rest with
    | nil => simp [pagesToTrace, getChannelByName, hk]
    | cons q lr => simp [pagesToTrace, getChannelByName, hk]
  | p :: pre', rest, pk, c, cursor, hall, hk => by
    have hp := hall p (by simp)
    have ih := getChannelByName_page_k name pre' rest pk c "c"
      (fun x hx => hall x (List.mem_cons_of_mem p hx)) hk
    cases pre' with
    | nil =>
      simp only [List.nil_append, List.cons_append] at ih ⊢
      simp [pagesToTrace, getChannelByName, hp, ih.1, ih.2]
    | cons p2 pre2 =>
      simp only [List.cons_append] at ih ⊢
      simp [pagesToTrace, getChannelByName, hp, ih.1, ih.2]

theorem getChannelByName_never_rate_limited (name : String) :
    ∀ (trace : List ChanStep) (cursor : String) (d : Nat),
      (getChannelByName name cursor trace).1 ≠ .err (.rateLimited d)
  | [], _, _ => by simp [getChannelByName]
  | .page channels next :: rest, cursor, d => by
    cases hp : channels.find? (fun c => c.name == name) with
    | some c => simp [getChannelByName, hp]
    | none =>
      by_cases hn : next = ""
      · simp [getChannelByName, hp, hn]
      · have ih := getChannelByName_never_rate_limited name rest next d
        simp [getChannelByName, hp, hn, ih]
  | .rateLimited d' ctxDone m :: rest, cursor, d => by
    cases ctxDone with
    | true => simp [getChannelByName]
    | false =>
      have ih := getChannelByName_never_rate_limited name rest cursor d
      simp [getChannelByName, ih]
  | .fail msg :: rest, cursor, d => by simp [getChannelByName]

theorem getUserByNameLoop_succeed_found (name : String) (p : UserPagination)
    (rest : List CallFate) (u : User)
    (h : (p.started && p.remaining.isEmpty) = false)
    (hm : (p.remaining.headD []).find? (fun v => v.name == name) = some u) :
    getUserByNameLoop name p (.succeed :: rest) = (.found u, 1) := by
  rw [List.headD_eq_head?_getD] at hm
  simp [getUserByNameLoop, h, hm]

theorem getUserByNameLoop_succeed_miss (name : String) (p : UserPagination)
    (rest : List CallFate)
    (h : (p.started && p.remaining.isEmpty) = false)
    (hm : (p.remaining.headD []).find? (fun v => v.name == name) = none) :
    getUserByNameLoop name p (.succeed :: rest) =
      ((getUserByNameLoop name ⟨p.remaining.headD [], p.remaining.tail, true⟩ rest).1,
        (getUserByNameLoop name ⟨p.remaining.headD [], p.remaining.tail, true⟩ rest).2 + 1) := by
  rw [List.headD_eq_head?_getD] at hm
  simp [getUserByNameLoop, h, hm]

theorem getUserByNameLoop_rate_limit_retry (name : String) (p : UserPagination)
    (fates : List CallFate) (d : Nat) (m : String)
    (h : (p.started && p.remaining.isEmpty) = false) :
    getUserByNameLoop name p (.rateLimit d false m :: fates) =
      ((getUserByNameLoop name p fates).1, (getUserByNameLoop name p fates).2 + 1) := by
  simp [getUserByNameLoop, h]

theorem getUserByNameLoop_rate_limit_cancel (name : String) (p : UserPagination)
    (fates : List CallFate) (d : Nat) (m : String)
    (h : (p.started && p.remaining.isEmpty) = false) :
    getUserByNameLoop name p (.rateLimit d true m :: fates) =
      (.err (.mk ("user: " ++ name ++ " not found")), 1) := by
  simp [getUserByNameLoop, h]

theorem getUserByNameLoop_fail_step (name : String) (p : UserPagination)
    (fates : List CallFate) (m : String)
    (h : (p.started && p.remaining.isEmpty) = false) :
    getUserByNameLoop name p (.fail m :: fates) =
      (.err (.mk ("user: " ++ name ++ " not found")), 1) := by
  simp [getUserByNameLoop, h]

theorem getUserByNameLoop_page_k (name : String) :
    ∀ (upre urest : List (List User)) (uk : List User) (u : User)
      (us : List User) (b : Bool),
      (∀ p ∈ upre, p.find? (fun v => v.name == name) = none) →
      uk.find? (fun v => v.name == name) = some u →
      getUserByNameLoop name ⟨us, upre ++ uk :: urest, b⟩
          (List.replicate (upre.length + 1) .succeed) =
        (.found u, upre.length + 1)
  | [], urest, uk, u, us, b, _, hk => by
    rw [List.replicate_succ]
    exact getUserByNameLoop_succeed_found name ⟨us, uk :: urest, b⟩ _ u
      (by simp) (by simpa using hk)
  | p :: upre', urest, uk, u, us, b, hall, hk => by
    have hp := hall p (by simp)
    have ih := getUserByNameLoop_page_k name upre' urest uk u p true
      (fun x hx => hall x (List.mem_cons_of_mem p hx)) hk
    simp only [List.length_cons, List.cons_append]
    rw [List.replicate_succ]
    rw [getUserByNameLoop_succeed_miss name ⟨us, p :: (upre' ++ uk :: urest), b⟩ _
      (by simp) (by simpa using hp)]
    simp only [List.headD_cons, List.tail_cons]
    rw [ih]

theorem getUserByNameLoop_never_rate_limited (name : String) :
    ∀ (fates : List CallFate) (p : UserPagination) (d : Nat),
      (getUserByNameLoop name p fates).1 ≠ .err (.rateLimited d)
  | [], p, d => by
    by_cases h : (p.started && p.remaining.isEmpty) = true <;>
      simp [getUserByNameLoop, h]
  | .succeed :: rest, p, d => by
    by_cases h : (p.started && p.remaining.isEmpty) = true
    · simp [getUserByNameLoop, h]
    · cases hp : (p.remaining.headD []).find? (fun u => u.name == name) with
      | some u => simp [getUserByNameLoop, h, List.headD_eq_head?_getD ▸ hp]
      | none =>
        have ih := getUserByNameLoop_never_rate_limited name rest
          ⟨p.remaining.headD [], p.remaining.tail, true⟩ d
        simp [getUserByNameLoop, h, List.headD_eq_head?_getD ▸ hp,
          List.headD_eq_head?_getD ▸ ih]
  | .rateLimit d' ctxDone m :: rest, p, d => by
    by_cases h : (p.started && p.remaining.isEmpty) = true
    · simp [getUserByNameLoop, h]
    · cases ctxDone with
      | true => simp [getUserByNameLoop, h]
      | false =>
        have ih := getUserByNameLoop_never_rate_limited name rest p d
        simp [getUserByNameLoop, h, ih]
  | .fail m :: rest, p, d => by
    by_cases h : (p.started && p.remaining.isEmpty) = true <;>
      simp [getUserByNameLoop, h]

theorem obsEq_err (e e' : GoError) (l : List String) :
    ObsEq (.err e, l) (.err e', l) := by
  refine ⟨rfl, fun c => ?_, ?_⟩ <;> simp

theorem obsEq_cons (p q : LookupResult Channel × List String) (c : String)
    (h : ObsEq p q) : ObsEq (p.1, c :: p.2) (q.1, c :: q.2) := by
  obtain ⟨h1, h2, h3⟩ := h
  exact ⟨by rw [h1], h2, h3⟩

theorem noRateLimit_tail (s : ChanStep) (rest : List ChanStep)
    (h : noRateLimit (s :: rest) = true) : noRateLimit rest = true := by
  simp only [noRateLimit, List.all_cons, Bool.and_eq_true] at h
  exact h.2

theorem getChannelByNameNoRetryLoop_empty_cursor (name : String) (trace : List ChanStep) :
    getChannelByNameNoRetryLoop name "" trace =
      (.err (.mk ("channel: " ++ name ++ " not found")), []) := by
  cases trace with
  | nil => simp [getChannelByNameNoRetryLoop]
  | cons s rest => cases s <;> simp [getChannelByNameNoRetryLoop]

theorem getChannelByName_loop_equiv (name : String) :
    ∀ (trace : List ChanStep) (cursor : String), (cursor == "") = false →
      noRateLimit trace = true →
      ObsEq (getChannelByName name cursor trace)
        (getChannelByNameNoRetryLoop name cursor trace)
  | [], cursor, hc, _ => by
    simp only [getChannelByName, getChannelByNameNoRetryLoop, hc]
    exact ⟨rfl, fun c => Iff.rfl, Iff.rfl⟩
  | .page channels next :: rest, cursor, hc, hrl => by
    cases hp : channels.find? (fun c => c.name == name) with
    | some c =>
      simp only [getChannelByName, getChannelByNameNoRetryLoop, hc, hp]
      exact ⟨rfl, fun c => Iff.rfl, Iff.rfl⟩
    | none =>
      have hrl' : noRateLimit rest = true := noRateLimit_tail _ _ hrl
      by_cases hn : next = ""
      · subst hn
        have h1 : getChannelByName name cursor (.page channels "" :: rest) =
            (.err (.mk "channel_not_found"), [cursor]) := by
          simp [getChannelByName, hp]
        have h2 : getChannelByNameNoRetryLoop name cursor (.page channels "" :: rest) =
            (.err (.mk ("channel: " ++ name ++ " not found")), [cursor]) := by
          simp [getChannelByNameNoRetryLoop, hc, hp,
            getChannelByNameNoRetryLoop_empty_cursor]
        rw [h1, h2]
        exact obsEq_err _ _ _
      · have hnb : (next == "") = false := by simpa using hn
        have ih := getChannelByName_loop_equiv name rest next hnb hrl'
        have h1 : getChannelByName name cursor (.page channels next :: rest) =
            ((getChannelByName name next rest).1,
              cursor :: (getChannelByName name next rest).2) := by
          simp [getChannelByName, hp, hnb]
        have h2 : getChannelByNameNoRetryLoop name cursor (.page channels next :: rest) =
            ((getChannelByNameNoRetryLoop name next rest).1,
              cursor :: (getChannelByNameNoRetryLoop name next rest).2) := by
          simp [getChannelByNameNoRetryLoop, hc, hp]
        rw [h1, h2]
        exact obsEq_cons _ _ cursor ih
  | .rateLimited d ctxDone m :: rest, cursor, hc, hrl => by
    exact absurd hrl (by simp [noRateLimit])
  | .fail msg :: rest, cursor, hc, hrl => by
    have h1 : getChannelByName name cursor (.fail msg :: rest) =
        (.err (.mk ("error listing channels: " ++ msg)), [cursor]) := by
      simp [getChannelByName]
    have h2 : getChannelByNameNoRetryLoop name cursor (.fail msg :: rest) =
        (.err (.mk msg), [cursor]) := by
      simp [getChannelByNameNoRetryLoop, hc]
    rw [h1, h2]
    exact obsEq_err _ _ _

theorem flatten_find_none {α : Type} (f : α → Bool) (pages : List (List α))
    (h : ∀ p ∈ pages, p.find? f = none) : pages.flatten.find? f = none := by
  rw [List.find?_eq_none]
  intro x hx
  rw [List.mem_flatten] at hx
  obtain ⟨p, hp, hxp⟩ := hx
  exact List.find?_eq_none.mp (h p hp) x hxp

theorem getUserGroupById_eq_find (id : String) :
    ∀ groups : List UserGroup,
      getUserGroupById groups id =
        match groups.find? (fun g => g.id == id) with
        | some g => .ok g
        | none => .error (.mk ("could not find user group " ++ id))
  | [] => rfl
  | g :: rest => by
    cases h : g.id == id with
    | true => simp [getUserGroupById, List.find?_cons, h]
    | false =>
      simp [getUserGroupById, List.find?_cons, h, getUserGroupById_eq_find id rest]

theorem getUserGroupByHandle_miss (handle : String) :
    ∀ groups : List UserGroup, (∀ g ∈ groups, (g.handle == handle) = false) →
      getUserGroupByHandle groups handle =
        .error (.mk ("could not find user group " ++ handle))
  | [], _ => rfl
  | g :: rest, hall => by
    have h := hall g (by simp)
    simp [getUserGroupByHandle, h,
      getUserGroupByHandle_miss handle rest (fun x hx => hall x (List.mem_cons_of_mem g hx))]

/-! ### Claims -/

/-- Claim C1: for every by-name lookup (channel by name, user by name) over a
sequence of pages in which the first item matching the requested name occurs
on page k (here k = pre.length + 1, the pages before it all missing), the
lookup returns that item after fetching exactly pages 1 through k — the fetch
log has length k for channels, and exactly k user-list fetches are issued —
and fetches no page beyond k. -/
theorem claim_C1_first_match_on_page_k (name : String) :
    (∀ (pre rest : List (List Channel)) (pk : List Channel) (c : Channel) (cursor : String),
      (∀ p ∈ pre, p.find? (fun ch => ch.name == name) = none) →
      pk.find? (fun ch => ch.name == name) = some c →
      (getChannelByName name cursor (pagesToTrace (pre ++ pk :: rest))).1 = .found c ∧
      (getChannelByName name cursor (pagesToTrace (pre ++ pk :: rest))).2.length =
        pre.length + 1) ∧
    (∀ (upre urest : List (List User)) (uk : List User) (u : User),
      (∀ p ∈ upre, p.find? (fun v => v.name == name) = none) →
      uk.find? (fun v => v.name == name) = some u →
      getUserByName name (upre ++ uk :: urest) (List.replicate (upre.length + 1) .succeed) =
        (.found u, upre.length + 1)) := by
  constructor
  · intro pre rest pk c cursor hall hk
    exact getChannelByName_page_k name pre rest pk c cursor hall hk
  · intro upre urest uk u hall hk
    simpa [getUserByName] using
      getUserByNameLoop_page_k name upre urest uk u [] false hall hk

/-- Witness for C1: the spec's scenario with three pages and the target on
page 2 — both lookups return the target after exactly two fetches. -/
theorem claim_C1_first_match_on_page_k_witness :
    ((getChannelByName "beta" ""
        (pagesToTrace ([[⟨"C1", "alpha", false, "", ""⟩]] ++
          [⟨"C2", "beta", false, "", ""⟩] :: [[⟨"C3", "gamma", false, "", ""⟩]]))).1 =
      .found ⟨"C2", "beta", false, "", ""⟩ ∧
     (getChannelByName "beta" ""
        (pagesToTrace ([[⟨"C1", "alpha", false, "", ""⟩]] ++
          [⟨"C2", "beta", false, "", ""⟩] :: [[⟨"C3", "gamma", false, "", ""⟩]]))).2.length = 2) ∧
    getUserByName "beta"
        ([[⟨"U1", "alpha", "a@x", false⟩]] ++ [⟨"U2", "beta", "b@x", false⟩] :: [])
        (List.replicate 2 .succeed) =
      (.found ⟨"U2", "beta", "b@x", false⟩, 2) :=
  ⟨(claim_C1_first_match_on_page_k "beta").1 [[⟨"C1", "alpha", false, "", ""⟩]]
      [[⟨"C3", "gamma", false, "", ""⟩]] [⟨"C2", "beta", false, "", ""⟩]
      ⟨"C2", "beta", false, "", ""⟩ "" (by decide) (by decide),
   (claim_C1_first_match_on_page_k "beta").2 [[⟨"U1", "alpha", "a@x", false⟩]] []
      [⟨"U2", "beta", "b@x", false⟩] ⟨"U2", "beta", "b@x", false⟩ (by decide) (by decide)⟩

/-- Claim C2: a lookup whose key matches no item on any page fails with the
not-found error only after the last page (empty cursor) has been scanned —
the channel lookup fetches all pages (log length equals the page count)
before returning `channel_not_found`, and the user-group-by-handle scan over
its single already-fetched page returns its not-found error; in particular an
empty collection (one page, no items, no cursor) yields not-found. -/
theorem claim_C2_not_found_after_last_page (name handle : String) :
    (∀ (pages : List (List Channel)) (cursor : String), pages ≠ [] →
      (∀ p ∈ pages, p.find? (fun ch => ch.name == name) = none) →
      (getChannelByName name cursor (pagesToTrace pages)).1 =
        .err (.mk "channel_not_found") ∧
      (getChannelByName name cursor (pagesToTrace pages)).2.length = pages.length) ∧
    (∀ groups : List UserGroup, (∀ g ∈ groups, (g.handle == handle) = false) →
      getUserGroupByHandle groups handle =
        .error (.mk ("could not find user group " ++ handle))) := by
  constructor
  · intro pages cursor hne hall
    exact ⟨getChannelByName_missed name pages cursor hne (flatten_find_none _ pages hall),
      getChannelByName_miss_log name pages cursor hall⟩
  · exact getUserGroupByHandle_miss handle

/-- Witness for C2: the empty collection (a single page with no items and no
cursor) yields not-found after its single fetch, and the empty user-group
list yields not-found. -/
theorem claim_C2_not_found_after_last_page_witness :
    ((getChannelByName "beta" "" (pagesToTrace [[]])).1 =
        .err (.mk "channel_not_found") ∧
      (getChannelByName "beta" "" (pagesToTrace [[]])).2.length = 1) ∧
    getUserGroupByHandle [] "oncall" =
      .error (.mk ("could not find user group " ++ "oncall")) :=
  ⟨(claim_C2_not_found_after_last_page "beta" "oncall").1 [[]] "" (by decide) (by decide),
   (claim_C2_not_found_after_last_page "beta" "oncall").2 [] (by decide)⟩

/-- Claim C3: a rate-limit signal on any fetch causes exactly one re-issue of
that same fetch — the channel loop re-fetches with the unchanged cursor and
the signal costs exactly one extra log entry; the user loop re-calls `Next`
on the unchanged pagination state (hence the same page) at the cost of
exactly one extra fetch — and a rate-limit error is never the result either
lookup returns to its caller. -/
theorem claim_C3_rate_limit_retry (name : String) :
    (∀ (cursor : String) (d : Nat) (m : String) (rest : List ChanStep),
      getChannelByName name cursor (.rateLimited d false m :: rest) =
        ((getChannelByName name cursor rest).1,
          cursor :: (getChannelByName name cursor rest).2)) ∧
    (∀ (p : UserPagination) (fates : List CallFate) (d : Nat) (m : String),
      (p.started && p.remaining.isEmpty) = false →
      getUserByNameLoop name p (.rateLimit d false m :: fates) =
        ((getUserByNameLoop name p fates).1, (getUserByNameLoop name p fates).2 + 1)) ∧
    (∀ (trace : List ChanStep) (cursor : String) (d : Nat),
      (getChannelByName name cursor trace).1 ≠ .err (.rateLimited d)) ∧
    (∀ (fates : List CallFate) (p : UserPagination) (d : Nat),
      (getUserByNameLoop name p fates).1 ≠ .err (.rateLimited d)) := by
  refine ⟨?_, ?_, getChannelByName_never_rate_limited name,
    getUserByNameLoop_never_rate_limited name⟩
  · intro cursor d m rest
    simp [getChannelByName]
  · intro p fates d m h
    exact getUserByNameLoop_rate_limit_retry name p fates d m h

/-- Witness for C3: a rate-limited first user-list fetch is retried on the
same (initial) pagination state at the cost of exactly one extra fetch. -/
theorem claim_C3_rate_limit_retry_witness :
    getUserByNameLoop "beta" ⟨[], [[⟨"U2", "beta", "b@x", false⟩]], false⟩
        (.rateLimit 2 false "ignored" :: [.succeed]) =
      ((getUserByNameLoop "beta" ⟨[], [[⟨"U2", "beta", "b@x", false⟩]], false⟩ [.succeed]).1,
        (getUserByNameLoop "beta" ⟨[], [[⟨"U2", "beta", "b@x", false⟩]], false⟩
            [.succeed]).2 + 1) :=
  (claim_C3_rate_limit_retry "beta").2.1 ⟨[], [[⟨"U2", "beta", "b@x", false⟩]], false⟩
    [.succeed] 2 "ignored" (by decide)

/-- Counterexample for C4: cancelling the context during the rate-limit
backoff of the user-by-name lookup makes it return exactly its not-found
error (the cancellation error is discarded), contradicting the claim that
the lookup then returns a cancellation-derived error and never not-found. -/
theorem claim_C4_cancel_cex :
    getUserByName "alice" [[⟨"U1", "bob", "bob@x", false⟩]]
        [.rateLimit 10 true "context deadline exceeded"] =
      (.err (.mk ("user: " ++ "alice" ++ " not found")), 1) := by
  decide

/-- Claim C4 as amended: when cancellation fires during a rate-limit backoff,
the channel-by-name lookup returns an error wrapping `ctx.Err()` (never its
not-found error), while the user-by-name lookup exits its retry loop but
falls through to its generic not-found error, discarding the cancellation
error. -/
theorem claim_C4_cancel_behavior (name : String) :
    (∀ (cursor : String) (d : Nat) (m : String) (rest : List ChanStep),
      getChannelByName name cursor (.rateLimited d true m :: rest) =
        (.err (.mk ("error listing channels: " ++ m)), [cursor])) ∧
    (∀ (p : UserPagination) (fates : List CallFate) (d : Nat) (m : String),
      (p.started && p.remaining.isEmpty) = false →
      getUserByNameLoop name p (.rateLimit d true m :: fates) =
        (.err (.mk ("user: " ++ name ++ " not found")), 1)) := by
  constructor
  · intro cursor d m rest
    simp [getChannelByName]
  · intro p fates d m h
    exact getUserByNameLoop_rate_limit_cancel name p fates d m h

/-- Witness for the amended C4 at a concrete cancelled backoff. -/
theorem claim_C4_cancel_behavior_witness :
    getUserByNameLoop "alice" ⟨[], [[⟨"U1", "bob", "bob@x", false⟩]], false⟩
        [.rateLimit 10 true "context canceled"] =
      (.err (.mk ("user: " ++ "alice" ++ " not found")), 1) :=
  (claim_C4_cancel_behavior "alice").2 ⟨[], [[⟨"U1", "bob", "bob@x", false⟩]], false⟩
    [] 10 "context canceled" (by decide)

/-- Counterexample for C5: the retry-loop channel lookup does not return a
transport error verbatim — it wraps it in `error listing channels: %s`. -/
theorem claim_C5_verbatim_cex :
    (getChannelByName "general" "" [.fail "transport broke"]).1 ≠
      .err (.mk "transport broke") := by
  decide

/-- Claim C5 as amended: every lookup routine aborts on a non-rate-limit
fetch error immediately — no further page is fetched and the fetch is never
retried — but only the older channel variant propagates the error verbatim;
the retry-loop channel variant returns it wrapped as
`error listing channels: <msg>`, and the user-by-name variant replaces it
with its generic not-found error. -/
theorem claim_C5_transport_error_behavior (name : String) :
    (∀ (cursor msg : String) (rest : List ChanStep),
      getChannelByName name cursor (.fail msg :: rest) =
        (.err (.mk ("error listing channels: " ++ msg)), [cursor])) ∧
    (∀ (p : UserPagination) (fates : List CallFate) (msg : String),
      (p.started && p.remaining.isEmpty) = false →
      getUserByNameLoop name p (.fail msg :: fates) =
        (.err (.mk ("user: " ++ name ++ " not found")), 1)) ∧
    (∀ (msg : String) (rest : List ChanStep),
      getChannelByNameNoRetry name (.fail msg :: rest) = (.err (.mk msg), [""])) ∧
    (∀ (next msg : String) (rest : List ChanStep), (next == "") = false →
      getChannelByNameNoRetryLoop name next (.fail msg :: rest) =
        (.err (.mk msg), [next])) := by
  refine ⟨?_, ?_, ?_, ?_⟩
  · intro cursor msg rest
    simp [getChannelByName]
  · intro p fates msg h
    exact getUserByNameLoop_fail_step name p fates msg h
  · intro msg rest
    simp [getChannelByNameNoRetry]
  · intro next msg rest h
    simp [getChannelByNameNoRetryLoop, h]

/-- Witness for the amended C5 at concrete transport failures. -/
theorem claim_C5_transport_error_behavior_witness :
    getUserByNameLoop "alice" ⟨[], [[⟨"U1", "bob", "bob@x", false⟩]], false⟩
        [.fail "boom"] = (.err (.mk ("user: " ++ "alice" ++ " not found")), 1) ∧
    getChannelByNameNoRetryLoop "general" "c" [.fail "boom"] =
      (.err (.mk "boom"), ["c"]) :=
  ⟨(claim_C5_transport_error_behavior "alice").2.1
      ⟨[], [[⟨"U1", "bob", "bob@x", false⟩]], false⟩ [] "boom" (by decide),
   (claim_C5_transport_error_behavior "general").2.2.2 "c" "boom" [] (by decide)⟩

/-- Claim C6: pages are consumed strictly in the order the endpoint returns
them, items in order within each page, and the item returned on success is
exactly the first match in this encounter order — the channel lookup's result
is determined by `find?` over the concatenation of the pages in order, and
the user-group-by-id scan is `find?` over its list, with no other
tie-break. -/
theorem claim_C6_encounter_order (name id : String) :
    (∀ (pages : List (List Channel)) (cursor : String) (c : Channel), pages ≠ [] →
      pages.flatten.find? (fun ch => ch.name == name) = some c →
      (getChannelByName name cursor (pagesToTrace pages)).1 = .found c) ∧
    (∀ (pages : List (List Channel)) (cursor : String), pages ≠ [] →
      pages.flatten.find? (fun ch => ch.name == name) = none →
      (getChannelByName name cursor (pagesToTrace pages)).1 =
        .err (.mk "channel_not_found")) ∧
    (∀ groups : List UserGroup,
      getUserGroupById groups id =
        match groups.find? (fun g => g.id == id) with
        | some g => .ok g
        | none => .error (.mk ("could not find user group " ++ id))) :=
  ⟨fun pages cursor c h hf => getChannelByName_found name pages cursor c h hf,
   fun pages cursor h hf => getChannelByName_missed name pages cursor h hf,
   getUserGroupById_eq_find id⟩

/-- Witness for C6: with two channels of the same name on successive pages,
the one encountered first (page order) is returned. -/
theorem claim_C6_encounter_order_witness :
    (getChannelByName "beta" ""
        (pagesToTrace [[⟨"C1", "beta", false, "", ""⟩], [⟨"C2", "beta", false, "", ""⟩]])).1 =
      .found ⟨"C1", "beta", false, "", ""⟩ :=
  (claim_C6_encounter_order "beta" "G").1
    [[⟨"C1", "beta", false, "", ""⟩], [⟨"C2", "beta", false, "", ""⟩]] ""
    ⟨"C1", "beta", false, "", ""⟩ (by decide) (by decide)

/-- Claim C7: the email lookup returns the direct by-email result when it
succeeds; on a `users_not_found` miss with the include-deactivated flag set
it performs the one fallback fetch of the full user list and scans it for the
first profile-email match; on a `users_not_found` miss without the flag it
returns that miss with no fallback; and any other direct-fetch error is
returned immediately with no fallback. -/
theorem claim_C7_email_lookup_policy (email : String) :
    (∀ (flag : Bool) (u : User) (allUsers : Except GoError (List User)),
      getUserByEmail email flag (.ok u) allUsers = (.ok u, false)) ∧
    (∀ us : List User,
      getUserByEmail email true (.error (.mk "users_not_found")) (.ok us) =
        ((match us.find? (fun v => v.email == email) with
          | some v => Except.ok v
          | none => Except.error (.mk ("user: " ++ email ++ " not found"))), true)) ∧
    (∀ e2 : GoError,
      getUserByEmail email true (.error (.mk "users_not_found")) (.error e2) =
        (.error e2, true)) ∧
    (∀ allUsers : Except GoError (List User),
      getUserByEmail email false (.error (.mk "users_not_found")) allUsers =
        (.error (.mk "users_not_found"), false)) ∧
    (∀ (flag : Bool) (e : GoError) (allUsers : Except GoError (List User)),
      e.message ≠ "users_not_found" →
      getUserByEmail email flag (.error e) allUsers = (.error e, false)) := by
  refine ⟨?_, ?_, ?_, ?_, ?_⟩
  · intro flag u allUsers
    rfl
  · intro us
    simp only [getUserByEmail, GoError.message]
    cases us.find? (fun v => v.email == email) <;> simp
  · intro e2
    rfl
  · intro allUsers
    simp [getUserByEmail, GoError.message]
  · intro flag e allUsers h
    have hb : (e.message == "users_not_found") = false := by simpa using h
    simp [getUserByEmail, hb]

/-- Witness for C7: a direct-fetch error other than `users_not_found` is
returned as-is with no fallback scan. -/
theorem claim_C7_email_lookup_policy_witness :
    getUserByEmail "a@x" true (.error (.mk "fatal")) (.ok []) =
      (.error (.mk "fatal"), false) :=
  (claim_C7_email_lookup_policy "a@x").2.2.2.2 true (.mk "fatal") (.ok []) (by decide)

/-- Claim C8: on every trace free of rate-limit signals the two channel-by-
name variants are equivalent — they send the same cursor sequence (fetch the
same pages), agree on success versus failure (and on trace truncation), and
return the same channel on success. -/
theorem claim_C8_channel_variants_equivalent (name : String) :
    ∀ trace : List ChanStep, noRateLimit trace = true →
      ObsEq (getChannelByName name "" trace) (getChannelByNameNoRetry name trace) := by
  intro trace hrl
  cases trace with
  | nil =>
    simp only [getChannelByName, getChannelByNameNoRetry]
    exact ⟨rfl, fun c => Iff.rfl, Iff.rfl⟩
  | cons s rest =>
    cases s with
    | page channels next =>
      cases hp : channels.find? (fun c => c.name == name) with
      | some c =>
        simp only [getChannelByName, getChannelByNameNoRetry, hp]
        exact ⟨rfl, fun c => Iff.rfl, Iff.rfl⟩
      | none =>
        have hrl' := noRateLimit_tail _ _ hrl
        by_cases hn : next = ""
        · subst hn
          have h1 : getChannelByName name "" (.page channels "" :: rest) =
              (.err (.mk "channel_not_found"), [""]) := by
            simp [getChannelByName, hp]
          have h2 : getChannelByNameNoRetry name (.page channels "" :: rest) =
              (.err (.mk ("channel: " ++ name ++ " not found")), [""]) := by
            simp [getChannelByNameNoRetry, hp, getChannelByNameNoRetryLoop_empty_cursor]
          rw [h1, h2]
          exact obsEq_err _ _ _
        · have hnb : (next == "") = false := by simpa using hn
          have ih := getChannelByName_loop_equiv name rest next hnb hrl'
          have h1 : getChannelByName name "" (.page channels next :: rest) =
              ((getChannelByName name next rest).1,
                "" :: (getChannelByName name next rest).2) := by
            simp [getChannelByName, hp, hnb]
          have h2 : getChannelByNameNoRetry name (.page channels next :: rest) =
              ((getChannelByNameNoRetryLoop name next rest).1,
                "" :: (getChannelByNameNoRetryLoop name next rest).2) := by
            simp [getChannelByNameNoRetry, hp]
          rw [h1, h2]
          exact obsEq_cons _ _ "" ih
    | rateLimited d ctxDone m =>
      exact absurd hrl (by simp [noRateLimit])
    | fail msg =>
      have h1 : getChannelByName name "" (.fail msg :: rest) =
          (.err (.mk ("error listing channels: " ++ msg)), [""]) := by
        simp [getChannelByName]
      have h2 : getChannelByNameNoRetry name (.fail msg :: rest) =
          (.err (.mk msg), [""]) := by
        simp [getChannelByNameNoRetry]
      rw [h1, h2]
      exact obsEq_err _ _ _

/-- Witness for C8 at a concrete rate-limit-free trace of two pages. -/
theorem claim_C8_channel_variants_equivalent_witness :
    ObsEq
      (getChannelByName "beta" ""
        [.page [⟨"C1", "alpha", false, "", ""⟩] "c", .page [⟨"C2", "beta", false, "", ""⟩] ""])
      (getChannelByNameNoRetry "beta"
        [.page [⟨"C1", "alpha", false, "", ""⟩] "c",
          .page [⟨"C2", "beta", false, "", ""⟩] ""]) :=
  claim_C8_channel_variants_equivalent "beta"
    [.page [⟨"C1", "alpha", false, "", ""⟩] "c", .page [⟨"C2", "beta", false, "", ""⟩] ""]
    (by decide)

/-- Claim C9: `ChannelResource.Delete` adds no error diagnostic when the
archive call fails with `channel_not_found` (or succeeds), and adds the
`Client Error` diagnostic for every other archive error. -/
theorem claim_C9_delete_tolerates_absent_channel :
    channelDeleteDiags (some (.mk "channel_not_found")) = [] ∧
    channelDeleteDiags none = [] ∧
    (∀ e : GoError, e.message ≠ "channel_not_found" →
      channelDeleteDiags (some e) =
        ["Unable to archive channel, got error: " ++ e.message]) := by
  refine ⟨by decide, rfl, ?_⟩
  intro e h
  have hb : (e.message == "channel_not_found") = false := by simpa using h
  simp [channelDeleteDiags, hb]

/-- Witness for C9: a distinct archive error produces the diagnostic. -/
theorem claim_C9_delete_tolerates_absent_channel_witness :
    channelDeleteDiags (some (.mk "internal_error")) =
      ["Unable to archive channel, got error: " ++ GoError.message (.mk "internal_error")] :=
  claim_C9_delete_tolerates_absent_channel.2.2 (.mk "internal_error") (by decide)

/-- Counterexample for C10: the repository's older duplicate of
`getChannelById` (provider.go lines 524-535) dereferences the fetched
pointer unconditionally, so on the error branch — where the fetch returns a
nil pointer and an error — it crashes, contradicting the claim that the
dereference is unreachable on the error branch for every outcome. -/
theorem claim_C10_unchecked_deref_cex :
    getChannelByIdUnchecked none (some (.mk "channel_not_found")) = .crash := rfl

/-- Claim C10 as amended: the guarded `getChannelById` (provider.go lines
730-744) is safe on the error branch — it returns the empty channel together
with the error without touching the fetched pointer — and dereferences only
on the nil-error path; the older duplicate (lines 524-535) crashes whenever
the fetch errors with a nil pointer. -/
theorem claim_C10_error_branch_safety :
    (∀ (fetched : Option Channel) (e : GoError),
      getChannelById fetched (some e) = .ok (Channel.empty, some e)) ∧
    (∀ c : Channel, getChannelById (some c) none = .ok (c, none)) ∧
    (∀ e : GoError, getChannelByIdUnchecked none (some e) = .crash) :=
  ⟨fun _ _ => rfl, fun _ => rfl, fun _ => rfl⟩

end SlackProvider
